import Mathlib

/-!
Verification of `merge_phase_jsons.py` (pdf-vector-crop-rasterizer).

Shallow embedding of the merger script: JSON values that matter to the
claims are modelled with `JVal`, dictionary keys that may be absent,
null, or hold a value with `JField`, and each Python function of the
script becomes a Lean definition of the same name.  Python exceptions
(AttributeError / TypeError raised by `.get` on `None` or iterating
`None`) are modelled with `Option`: `none` means the Python call raises.
-/

namespace MergePhase

/-- A JSON scalar value as far as the claims need it: null, a string,
or an integer. -/
inductive JVal where
  | null
  | str (s : String)
  | int (n : Int)
  deriving DecidableEq

/-- State of a key in a JSON mapping: the key can be absent, present
with value null, or present with a value.  Python's `d.get(k)` returns
`None` in the first two cases; `d.get(k, dflt)` returns `dflt` only in
the first. -/
inductive JField (α : Type) where
  | absent
  | null
  | val (a : α)
  deriving DecidableEq

/-- `grid_dimensions` mapping of a Phase 1 document: each of the two
keys is an integer or absent. -/
structure GridDims where
  width_grids : Option Int
  height_grids : Option Int
  deriving DecidableEq

/-- `scale_info` mapping of a Phase 1 document; `drawing_scale` uses
`JVal.null` for an absent or null key (`.get` with no default). -/
structure ScaleInfo where
  drawing_scale : JVal
  deriving DecidableEq

/-- One structural element of a Phase 2 document: a mapping whose
`type` key may be absent, null, or a string. -/
structure Element where
  type : JField String
  deriving DecidableEq

/-- The Phase 1 fields the claims depend on.  `floor` uses `JVal.null`
for an absent or null key since it is only read with `.get('floor')`. -/
structure Phase1Data where
  floor : JVal
  grid_dimensions : JField GridDims
  scale_info : JField ScaleInfo
  deriving DecidableEq

/-- The Phase 2 fields the claims depend on. -/
structure Phase2Data where
  structural_elements : JField (List Element)
  annotation_metadata : JField (List (String × JVal))
  deriving DecidableEq

/-- The integrated record built by `merge_json_files` (lines 60-104),
restricted to the fields the claims depend on.  The merger always puts
the `grid_dimensions` and `structural_elements` keys in the record, so
`JField.absent` is never produced by it, but the hint calculator is
defined on the full type. -/
structure IntegratedRecord where
  floor : JVal
  grid_dimensions : JField GridDims
  structural_elements : JField (List Element)
  annotation_metadata : List (String × JVal)
  deriving DecidableEq

/-- Summary statistics computed by `calculate_training_hints`.
`element_counts` is an insertion-ordered association list, like a
Python dict. -/
structure TrainingHints where
  total_area_grids : Int
  has_entrance : Bool
  has_stair : Bool
  has_balcony : Bool
  element_counts : List (JVal × Nat)
  estimated_room_count : Int
  deriving DecidableEq

/-- `el.get('type') == s` for a string literal `s`: absent and null
`type` keys compare unequal to any string. -/
def typeIs (el : Element) (s : String) : Bool :=
  match el.type with
  | JField.val t => t = s
  | _ => false

/-- The dict key `el.get('type', 'unknown')` used for `element_counts`:
`"unknown"` only when the key is absent; a null `type` is tallied under
the null key. -/
def elemKey (el : Element) : JVal :=
  match el.type with
  | JField.absent => JVal.str "unknown"
  | JField.null => JVal.null
  | JField.val s => JVal.str s

/-- `counts[k] = counts.get(k, 0) + 1` on an insertion-ordered dict:
update the first entry with this key in place, or append a fresh entry
with count 1. -/
def bumpCount : List (JVal × Nat) → JVal → List (JVal × Nat)
  | [], k => [(k, 1)]
  | (k2, c) :: rest, k =>
      if k2 = k then (k2, c + 1) :: rest else (k2, c) :: bumpCount rest k

/-- The `element_counts` tally loop of `calculate_training_hints`
(lines 128-130). -/
def element_counts (elements : List Element) : List (JVal × Nat) :=
  elements.foldl (fun acc el => bumpCount acc (elemKey el)) []

/-- `sum(1 for el in elements if el.get('type') == 'balcony')`
(line 146). -/
def balconyCount (elements : List Element) : Nat :=
  (elements.filter (fun el => typeIs el "balcony")).length

/-- `grid_dims.get('width_grids', 6) * grid_dims.get('height_grids', 10)`
(line 150): the room estimator's grid total, with its 6 x 10 defaults
for absent keys. -/
def totalGridsDefault (grid_dims : GridDims) : Int :=
  grid_dims.width_grids.getD 6 * grid_dims.height_grids.getD 10

/-- `estimate_room_count` (lines 138-157): 1 base room (LDK), bedrooms
estimated as `max(1, balcony_count)` plus 1 when the defaulted grid
total exceeds 80, and 1 fixed wet area. -/
def estimate_room_count (elements : List Element) (grid_dims : GridDims) : Int :=
  let base_rooms : Int := 1
  let bedroom_estimate : Int := max 1 (balconyCount elements : Int)
  let bedroom_estimate : Int :=
    if totalGridsDefault grid_dims > 80 then bedroom_estimate + 1 else bedroom_estimate
  let wet_areas : Int := 1
  base_rooms + bedroom_estimate + wet_areas

/-- `data.get('grid_dimensions', {})` inside `calculate_training_hints`
(line 116) followed by the `.get(..., 0)` accesses (line 120): an
absent key degrades to the empty mapping, a null value makes the later
attribute accesses raise (modelled `none`). -/
def gridDimsOrEmpty : JField GridDims → Option GridDims
  | JField.absent => some { width_grids := none, height_grids := none }
  | JField.null => none
  | JField.val gd => some gd

/-- `data.get('structural_elements', [])` inside
`calculate_training_hints` (line 117): an absent key degrades to `[]`,
a null value makes the generator expressions on line 121 raise. -/
def elementsOrEmpty : JField (List Element) → Option (List Element)
  | JField.absent => some []
  | JField.null => none
  | JField.val l => some l

/-- `calculate_training_hints` (lines 112-135).  Returns `none` exactly
when the Python function raises (null `grid_dimensions` or null
`structural_elements` value in the record). -/
def calculate_training_hints (data : IntegratedRecord) : Option TrainingHints :=
  match gridDimsOrEmpty data.grid_dimensions, elementsOrEmpty data.structural_elements with
  | some grid_dims, some elements =>
      some { total_area_grids := grid_dims.width_grids.getD 0 * grid_dims.height_grids.getD 0
           , has_entrance := elements.any (fun el => typeIs el "entrance")
           , has_stair := elements.any (fun el => typeIs el "stair")
           , has_balcony := elements.any (fun el => typeIs el "balcony")
           , element_counts := element_counts elements
           , estimated_room_count := estimate_room_count elements grid_dims }
  | _, _ => none

/-- Python `str(x)` for the value of `.get('width_grids')` /
`.get('height_grids')` inside the f-string on line 101: the literal
`"None"` for an absent key, the decimal rendering otherwise. -/
def pyStrOfOptInt : Option Int → String
  | none => "None"
  | some n => toString n

/-- `d[k] = v` on an insertion-ordered dict (the explicit keys of the
dict literal on lines 98-103): override the first entry with this key
in place, or append the fresh key at the end. -/
def setKey : List (String × JVal) → String → JVal → List (String × JVal)
  | [], k, v => [(k, v)]
  | (k2, v2) :: rest, k, v =>
      if k2 = k then (k2, v) :: rest else (k2, v2) :: setKey rest k v

/-- First-entry lookup in an insertion-ordered dict. -/
def lookupKey (k : String) : List (String × JVal) → Option JVal
  | [] => none
  | (k2, v) :: rest => if k2 = k then some v else lookupKey k rest

/-- `phase2_data.get('annotation_metadata', {})` as used on lines 92
and 98: absent degrades to the empty mapping; a null value makes
line 92's `.get('annotation_time')` raise (modelled `none`). -/
def annotationBase (p2 : Phase2Data) : Option (List (String × JVal))  :=
  match p2.annotation_metadata with
  | JField.absent => some []
  | JField.null => none
  | JField.val m => some m

/-- The f-string on line 101 building `grid_resolution`: absent
`grid_dimensions` degrades to `{}` whose `.get` calls give `None`
(rendered `"None"`); a null value makes `.get('width_grids')` raise. -/
def gridResolutionString (p1 : Phase1Data) : Option String :=
  match p1.grid_dimensions with
  | JField.absent => some (pyStrOfOptInt none ++ "x" ++ pyStrOfOptInt none)
  | JField.null => none
  | JField.val gd =>
      some (pyStrOfOptInt gd.width_grids ++ "x" ++ pyStrOfOptInt gd.height_grids)

/-- `phase1_data.get('scale_info', {}).get('drawing_scale')` (line 102):
absent `scale_info` degrades to `{}` whose `.get` gives `None`; a null
value makes the inner `.get` raise. -/
def drawingScaleValue (p1 : Phase1Data) : Option JVal :=
  match p1.scale_info with
  | JField.absent => some JVal.null
  | JField.null => none
  | JField.val si => some si.drawing_scale

/-- `d.get(k)` landing in the record dict: the key is always written,
so an absent input key becomes a null record value. -/
def getJField {α : Type} : JField α → JField α
  | JField.absent => JField.null
  | JField.null => JField.null
  | JField.val a => JField.val a

/-- `d.get(k, dflt)` landing in the record dict: an absent input key
becomes the default, a null value stays null. -/
def getJFieldD {α : Type} (dflt : α) : JField α → JField α
  | JField.absent => JField.val dflt
  | JField.null => JField.null
  | JField.val a => JField.val a

/-- The record construction of `merge_json_files` (lines 60-104),
before `calculate_training_hints` is attached on line 107.  Returns
`none` exactly when building the dict literal raises: a null
`annotation_metadata` in Phase 2 (line 92), a null `grid_dimensions`
in Phase 1 (line 101), or a null `scale_info` in Phase 1 (line 102). -/
def merge_record (p1 : Phase1Data) (p2 : Phase2Data) : Option IntegratedRecord :=
  match annotationBase p2, gridResolutionString p1, drawingScaleValue p1 with
  | some base, some res, some ds =>
      some { floor := p1.floor
           , grid_dimensions := getJField p1.grid_dimensions
           , structural_elements := getJFieldD [] p2.structural_elements
           , annotation_metadata :=
               setKey (setKey (setKey base "floor_type" p1.floor)
                 "grid_resolution" (JVal.str res)) "drawing_scale" ds }
  | _, _, _ => none

/-- `merge_json_files` (lines 48-109): build the record, then attach
the training hints; a raise in either step fails the whole merge. -/
def merge_json_files (p1 : Phase1Data) (p2 : Phase2Data) :
    Option (IntegratedRecord × TrainingHints) :=
  match merge_record p1 p2 with
  | none => none
  | some record =>
      match calculate_training_hints record with
      | none => none
      | some hints => some (record, hints)

/-- Python `s.endswith(pat)` on the character list of a string; used to
model the glob pattern on line 32. -/
def strEndsWith (s pat : String) : Bool :=
  pat.data.isSuffixOf s.data

/-- One scan step of Python `s.replace(pat, '')` for a non-empty `pat`:
at each position, a match of `pat` is dropped and scanning resumes
after it, otherwise one character is kept.  `fuel` bounds the scan by
the string length. -/
def removeAllAux (pat : List Char) : Nat → List Char → List Char
  | 0, s => s
  | _ + 1, [] => []
  | fuel + 1, c :: rest =>
      if pat.isPrefixOf (c :: rest) then
        removeAllAux pat fuel ((c :: rest).drop pat.length)
      else
        c :: removeAllAux pat fuel rest

/-- Python `s.replace(pat, '')`: every non-overlapping occurrence of
`pat`, scanned left to right, is removed. -/
def removeAll (pat : String) (s : String) : String :=
  String.mk (removeAllAux pat.data s.data.length s.data)

/-- Python `Path.stem` for the `.json` files handled here: the file
name without its final `.json` extension. -/
def stemOf (f : String) : String :=
  if strEndsWith f ".json" then String.mk (f.data.take (f.data.length - 5)) else f

/-- `phase1_file.stem.replace("_metadata", "")` (lines 36 and 256): the
base name used both for pairing and for the output file name. -/
def baseNameOf (phase1_file : String) : String :=
  removeAll "_metadata" (stemOf phase1_file)

/-- `find_json_pairs` (lines 25-45) over a directory listing: keep the
files matching `*_metadata.json`; pair each with
`<base>_elements.json` when that file is present in the listing. -/
def find_json_pairs (files : List String) : List (String × String) :=
  (files.filter (fun f => strEndsWith f "_metadata.json")).filterMap
    (fun phase1_file =>
      if (baseNameOf phase1_file ++ "_elements.json") ∈ files then
        some (phase1_file, baseNameOf phase1_file ++ "_elements.json")
      else none)

/-- The output file name chosen on lines 256-257. -/
def outputNameOf (phase1_file : String) : String :=
  baseNameOf phase1_file ++ "_integrated.json"

/-- One discovered pair as `main` sees it: the Phase 1 file name and
whether merging this pair succeeds (its files read and parse). -/
structure PairRun where
  phase1_name : String
  merge_ok : Bool
  deriving DecidableEq

/-- A filesystem write performed by `main`. -/
inductive FsEffect where
  | mkdirOut
  | writeRecordFile (name : String)
  | writeSummaryFile
  deriving DecidableEq

/-- The summary dict of lines 273-280, restricted to the fields the
claims depend on. -/
structure RunSummary where
  total_pairs : Nat
  successful_merges : Nat
  merged_files : List String
  deriving DecidableEq

/-- Observable outcome of one `main` invocation: the process exit code,
the filesystem writes in order, and the summary content if one is
written. -/
structure RunResult where
  exitCode : Nat
  effects : List FsEffect
  summary : Option RunSummary
  deriving DecidableEq

/-- `main` (lines 208-285) over an abstract filesystem: exit 1 when the
input directory is missing (line 220) or no pairs are found (line 233);
otherwise create the output directory when needed (lines 224-226),
write one integrated file per pair whose merge succeeds (per-pair
failures are caught and skipped, lines 263-265), and write the summary
(lines 269-285) when the run is not a dry run and at least one merge
succeeded.  A dry run skips the whole loop body (lines 243-245). -/
def mainRun (input_dir_exists output_dir_exists dry_run : Bool)
    (pairs : List PairRun) : RunResult :=
  if input_dir_exists = false then
    { exitCode := 1, effects := [], summary := none }
  else
    let mkdirEffs : List FsEffect :=
      if dry_run = false ∧ output_dir_exists = false then [FsEffect.mkdirOut] else []
    if pairs = [] then
      { exitCode := 1, effects := mkdirEffs, summary := none }
    else
      let okPairs := pairs.filter (fun p => p.merge_ok)
      let writes : List FsEffect :=
        if dry_run = true then []
        else okPairs.map (fun p => FsEffect.writeRecordFile (outputNameOf p.phase1_name))
      let succ : Nat := if dry_run = true then 0 else okPairs.length
      if dry_run = false ∧ succ > 0 then
        { exitCode := 0
        , effects := mkdirEffs ++ writes ++ [FsEffect.writeSummaryFile]
        , summary := some
            { total_pairs := pairs.length
            , successful_merges := succ
            , merged_files := (pairs.take succ).map (fun p => baseNameOf p.phase1_name) } }
      else
        { exitCode := 0, effects := mkdirEffs ++ writes, summary := none }

/-- Sum of the per-type counts of an `element_counts` dict. -/
def sumCounts (m : List (JVal × Nat)) : Nat :=
  (m.map (fun p => p.2)).sum

/-- An element whose `type` is the string `"balcony"`. -/
def balconyElement : Element := { type := JField.val "balcony" }

/-- A 6 x 10 grid (the default sizes, total 60). -/
def grid6x10 : GridDims := { width_grids := some 6, height_grids := some 10 }

/-- A Phase 1 document with every modelled key absent. -/
def phase1Empty : Phase1Data :=
  { floor := JVal.null, grid_dimensions := JField.absent, scale_info := JField.absent }

/-- A Phase 2 document with every modelled key absent. -/
def phase2Empty : Phase2Data :=
  { structural_elements := JField.absent, annotation_metadata := JField.absent }

/-- A Phase 1 document whose `grid_dimensions` key is present with
value null. -/
def phase1NullGrid : Phase1Data :=
  { floor := JVal.null, grid_dimensions := JField.null, scale_info := JField.absent }

/-- A Phase 2 document with a one-entry `annotation_metadata` mapping. -/
def phase2Ann : Phase2Data :=
  { structural_elements := JField.absent
  , annotation_metadata := JField.val [("annotator", JVal.str "alice")] }

/-- Closed form of the estimator: base room and wet area around the
bedroom estimate with its area bonus. -/
theorem estimate_room_count_eq (elements : List Element) (grid_dims : GridDims) :
    estimate_room_count elements grid_dims =
      1 + (max 1 (balconyCount elements : Int) +
        (if totalGridsDefault grid_dims > 80 then 1 else 0)) + 1 := by
  unfold estimate_room_count
  split <;> ring

/-- The estimator is bounded below by 3. -/
theorem estimate_room_count_ge_three (elements : List Element) (grid_dims : GridDims) :
    3 ≤ estimate_room_count elements grid_dims := by
  rw [estimate_room_count_eq]
  have h1 : (1 : Int) ≤ max 1 (balconyCount elements : Int) := le_max_left _ _
  split <;> linarith

/-- C1, counterexample: with the default 6 x 10 grid (area 60 ≤ 80),
zero and one balcony both give an estimate of 3 (the `max(1, _)`
plateau), and two balconies give 4, not 5 — so the step from 0 to 2
balconies is not strictly increasing and does not reach 5. -/
theorem c1_counterexample :
    totalGridsDefault grid6x10 ≤ 80 ∧
    estimate_room_count [] grid6x10 = 3 ∧
    estimate_room_count [balconyElement] grid6x10 = 3 ∧
    estimate_room_count [balconyElement, balconyElement] grid6x10 = 4 ∧
    ¬ estimate_room_count [balconyElement, balconyElement] grid6x10 = 5 := by
  decide

/-- C1, amended: with grid area (under the estimator's 6/10 defaults)
at most 80, the estimate equals `2 + max 1 balcony_count`: it stays at
3 from 0 to 1 balconies, and from 1 balcony on each further balcony
adds exactly 1, with no cap. -/
theorem c1_amended (elements : List Element) (gd : GridDims)
    (harea : totalGridsDefault gd ≤ 80) :
    estimate_room_count elements gd = 2 + max 1 (balconyCount elements : Int) ∧
    (balconyCount elements = 0 → estimate_room_count elements gd = 3) ∧
    (1 ≤ balconyCount elements →
      estimate_room_count elements gd = 2 + (balconyCount elements : Int)) := by
  have hmain : estimate_room_count elements gd = 2 + max 1 (balconyCount elements : Int) := by
    rw [estimate_room_count_eq, if_neg (not_lt.mpr harea)]
    ring
  refine ⟨hmain, ?_, ?_⟩
  · intro h0
    rw [hmain, h0]
    decide
  · intro h1
    rw [hmain, max_eq_right (by exact_mod_cast h1)]

/-- C1, witness: the amended statement applied to three balconies on
the default grid. -/
theorem c1_amended_witness :
    totalGridsDefault grid6x10 ≤ 80 ∧
    estimate_room_count [balconyElement, balconyElement, balconyElement] grid6x10 =
      2 + max 1 ((balconyCount [balconyElement, balconyElement, balconyElement] : Nat) : Int) :=
  ⟨by decide,
   (c1_amended [balconyElement, balconyElement, balconyElement] grid6x10 (by decide)).1⟩

/-- C4: whenever the hint calculator succeeds, the estimated room
count it stores is at least 3 (1 base + at least 1 bedroom + 1 wet
area). -/
theorem c4_estimated_room_count_ge_three (rec : IntegratedRecord) (hints : TrainingHints)
    (h : calculate_training_hints rec = some hints) :
    3 ≤ hints.estimated_room_count := by
  unfold calculate_training_hints at h
  cases hg : gridDimsOrEmpty rec.grid_dimensions with
  | none => rw [hg] at h; exact absurd h (by simp)
  | some gd =>
      cases he : elementsOrEmpty rec.structural_elements with
      | none => rw [hg, he] at h; exact absurd h (by simp)
      | some els =>
          rw [hg, he] at h
          simp only [Option.some.injEq] at h
          rw [← h]
          exact estimate_room_count_ge_three els gd

/-- C4, witness: the calculator on a record with an empty 4 x 2 grid
and no elements yields an estimate of at least 3. -/
theorem c4_witness :
    3 ≤ (TrainingHints.mk 8 false false false [] 3).estimated_room_count :=
  c4_estimated_room_count_ge_three
    { floor := JVal.null
    , grid_dimensions := JField.val { width_grids := some 4, height_grids := some 2 }
    , structural_elements := JField.val []
    , annotation_metadata := [] }
    (TrainingHints.mk 8 false false false [] 3) (by decide)

/-- C5: the estimator's grid total multiplies the dimensions with
defaults 6 (width) and 10 (height) for absent keys, and crossing the
`> 80` threshold adds exactly 1 to the estimate; in particular a
9 x 10 grid yields one more room than an otherwise identical 8 x 10
grid. -/
theorem c5_total_grids_threshold (elements : List Element) (w h : Int)
    (gd gd2 : GridDims)
    (hbig : totalGridsDefault gd > 80) (hsmall : totalGridsDefault gd2 ≤ 80) :
    totalGridsDefault { width_grids := none, height_grids := some h } = 6 * h ∧
    totalGridsDefault { width_grids := some w, height_grids := none } = w * 10 ∧
    totalGridsDefault { width_grids := some w, height_grids := some h } = w * h ∧
    totalGridsDefault { width_grids := none, height_grids := none } = 60 ∧
    estimate_room_count elements gd = estimate_room_count elements gd2 + 1 ∧
    estimate_room_count elements { width_grids := some 9, height_grids := some 10 }
      = estimate_room_count elements { width_grids := some 8, height_grids := some 10 } + 1 := by
  refine ⟨rfl, rfl, rfl, rfl, ?_, ?_⟩
  · rw [estimate_room_count_eq, estimate_room_count_eq,
      if_pos hbig, if_neg (not_lt.mpr hsmall)]
    ring
  · rw [estimate_room_count_eq, estimate_room_count_eq,
      if_pos (by decide), if_neg (by decide)]
    ring

/-- C5, witness: the threshold statement applied to a 9 x 10 grid
against the default 6 x 10 grid. -/
theorem c5_total_grids_threshold_witness :
    totalGridsDefault { width_grids := some 9, height_grids := some 10 } > 80 ∧
    totalGridsDefault grid6x10 ≤ 80 ∧
    estimate_room_count [] { width_grids := some 9, height_grids := some 10 } =
      estimate_room_count [] grid6x10 + 1 :=
  ⟨by decide, by decide,
   (c5_total_grids_threshold [] 3 7 { width_grids := some 9, height_grids := some 10 }
     grid6x10 (by decide) (by decide)).2.2.2.2.1⟩

/-- Bumping one key raises the count total by exactly one. -/
theorem sumCounts_bumpCount (m : List (JVal × Nat)) (k : JVal) :
    sumCounts (bumpCount m k) = sumCounts m + 1 := by
  induction m with
  | nil => rfl
  | cons p rest ih =>
      obtain ⟨k2, c⟩ := p
      by_cases hk : k2 = k
      · simp only [bumpCount, if_pos hk, sumCounts, List.map_cons, List.sum_cons]
        omega
      · simp only [bumpCount, if_neg hk, sumCounts, List.map_cons, List.sum_cons] at *
        omega

/-- Folding the tally loop from any accumulator adds one per element. -/
theorem sumCounts_foldl (els : List Element) (m : List (JVal × Nat)) :
    sumCounts (els.foldl (fun acc el => bumpCount acc (elemKey el)) m) =
      sumCounts m + els.length := by
  induction els generalizing m with
  | nil => simp
  | cons e rest ih =>
      simp only [List.foldl_cons, List.length_cons, ih, sumCounts_bumpCount]
      omega

/-- C10: every element is tallied exactly once — the per-type counts
of `element_counts` sum to the number of elements. -/
theorem c10_element_counts_sum (elements : List Element) :
    sumCounts (element_counts elements) = elements.length := by
  simpa [element_counts, sumCounts] using sumCounts_foldl elements []

/-- C7: a dry run performs no filesystem writes — no output directory
creation, no integrated record file, no summary file. -/
theorem c7_dry_run_no_writes (input_dir_exists output_dir_exists : Bool)
    (pairs : List PairRun) :
    (mainRun input_dir_exists output_dir_exists true pairs).effects = [] ∧
    (mainRun input_dir_exists output_dir_exists true pairs).summary = none := by
  cases input_dir_exists <;> by_cases hp : pairs = [] <;>
    simp [mainRun, hp]

/-- C6: exit code 1 when the input directory is missing, exit code 1
when no pairs are found, exit code 0 otherwise — whatever the per-pair
merge outcomes are. -/
theorem c6_exit_codes (output_dir_exists dry_run : Bool) (pairs : List PairRun)
    (hne : pairs ≠ []) :
    (mainRun false output_dir_exists dry_run pairs).exitCode = 1 ∧
    (mainRun true output_dir_exists dry_run []).exitCode = 1 ∧
    (mainRun true output_dir_exists dry_run pairs).exitCode = 0 := by
  refine ⟨rfl, by simp [mainRun], ?_⟩
  simp only [mainRun, if_neg (by simp : ¬(true = false)), if_neg hne]
  split <;> split <;> rfl

/-- C6, witness: a run over one pair whose merge fails still exits
with code 0. -/
theorem c6_exit_codes_witness :
    ([{ phase1_name := "a_metadata.json", merge_ok := false }] : List PairRun) ≠ [] ∧
    (mainRun true true false [{ phase1_name := "a_metadata.json", merge_ok := false }]).exitCode
      = 0 :=
  ⟨by decide,
   (c6_exit_codes true false [{ phase1_name := "a_metadata.json", merge_ok := false }]
     (by decide)).2.2⟩

/-- C3: with a failing pair `a` followed by a succeeding pair `b`, the
summary's `merged_files` is the length-1 prefix `["a"]` of the
discovered pairs — the failing pair's base name — while the pairs that
actually merged are `["b"]`; `successful_merges` is still 1, the true
success count.  This evaluates the code at the failing input of the
report. -/
theorem c3_summary_prefix_bug :
    (mainRun true true false
      [{ phase1_name := "a_metadata.json", merge_ok := false },
       { phase1_name := "b_metadata.json", merge_ok := true }]).summary =
      some { total_pairs := 2, successful_merges := 1, merged_files := ["a"] } ∧
    (([{ phase1_name := "a_metadata.json", merge_ok := false },
       { phase1_name := "b_metadata.json", merge_ok := true }] : List PairRun).filter
        (fun p => p.merge_ok)).map (fun p => baseNameOf p.phase1_name) = ["b"] ∧
    (["a"] : List String) ≠ ["b"] := by
  decide

/-- C2, counterexample: from a Phase 1 without the `grid_dimensions`
key, the merger builds a record whose `grid_dimensions` value is null,
and the hint calculator raises on that record (models the Python
`AttributeError` from `None.get('width_grids', 0)`), so the whole
merge fails. -/
theorem c2_counterexample :
    (merge_record phase1Empty phase2Empty).map (fun r => r.grid_dimensions) =
      some JField.null ∧
    (merge_record phase1Empty phase2Empty).bind calculate_training_hints = none ∧
    merge_json_files phase1Empty phase2Empty = none := by
  decide

/-- C2, amended: the hint calculator raises exactly when the record's
`grid_dimensions` or `structural_elements` value is null (which the
merger produces whenever Phase 1 lacked or nulled the key); when
`grid_dimensions` holds a mapping, the calculator succeeds on any
element list and treats absent width/height keys as 0 in
`total_area_grids`. -/
theorem c2_amended (rec : IntegratedRecord) :
    (calculate_training_hints rec = none ↔
      rec.grid_dimensions = JField.null ∨ rec.structural_elements = JField.null) ∧
    (∀ gd hints, rec.grid_dimensions = JField.val gd →
      calculate_training_hints rec = some hints →
      hints.total_area_grids = gd.width_grids.getD 0 * gd.height_grids.getD 0) := by
  constructor
  · obtain ⟨fl, gdf, sef, am⟩ := rec
    cases gdf <;> cases sef <;>
      simp [calculate_training_hints, gridDimsOrEmpty, elementsOrEmpty]
  · intro gd hints hgd hc
    unfold calculate_training_hints at hc
    rw [hgd] at hc
    cases he : elementsOrEmpty rec.structural_elements with
    | none =>
        rw [he] at hc
        exact absurd hc (by simp [gridDimsOrEmpty])
    | some els =>
        rw [he] at hc
        simp only [gridDimsOrEmpty, Option.some.injEq] at hc
        rw [← hc]

/-- C2, witness: the amended statement applied to a record with a null
`grid_dimensions` value: the calculator raises. -/
theorem c2_amended_witness :
    calculate_training_hints
      { floor := JVal.null, grid_dimensions := JField.null
      , structural_elements := JField.val [], annotation_metadata := [] } = none :=
  ((c2_amended
    { floor := JVal.null, grid_dimensions := JField.null
    , structural_elements := JField.val [], annotation_metadata := [] }).1).mpr
    (Or.inl rfl)

/-- Setting a key makes lookup of that key return that value. -/
theorem lookupKey_setKey_self (m : List (String × JVal)) (k : String) (v : JVal) :
    lookupKey k (setKey m k v) = some v := by
  induction m with
  | nil => simp [setKey, lookupKey]
  | cons p rest ih =>
      obtain ⟨k2, v2⟩ := p
      by_cases hk : k2 = k
      · simp [setKey, hk, lookupKey]
      · simp [setKey, hk, lookupKey, ih]

/-- Setting one key leaves lookup of any other key unchanged. -/
theorem lookupKey_setKey_other (m : List (String × JVal)) (k k2 : String) (v : JVal)
    (hne : k2 ≠ k) : lookupKey k (setKey m k2 v) = lookupKey k m := by
  induction m with
  | nil => simp [setKey, lookupKey, hne]
  | cons p rest ih =>
      obtain ⟨k3, v3⟩ := p
      by_cases h3 : k3 = k2
      · subst h3
        simp [setKey, lookupKey, hne]
      · by_cases hk : k3 = k
        · subst hk
          simp [setKey, lookupKey, h3]
        · simp [setKey, lookupKey, h3, hk, ih]

/-- An absent `grid_dimensions` formats as the literal `NonexNone`. -/
theorem gridResolutionString_absent (p1 : Phase1Data)
    (h : p1.grid_dimensions = JField.absent) :
    gridResolutionString p1 = some "NonexNone" := by
  unfold gridResolutionString
  rw [h]
  decide

/-- A `grid_dimensions` mapping formats its two dimensions with `str`,
`"None"` standing for an absent dimension. -/
theorem gridResolutionString_val (p1 : Phase1Data) (gd : GridDims)
    (h : p1.grid_dimensions = JField.val gd) :
    gridResolutionString p1 =
      some (pyStrOfOptInt gd.width_grids ++ "x" ++ pyStrOfOptInt gd.height_grids) := by
  unfold gridResolutionString
  rw [h]

/-- C9, counterexample: a Phase 1 whose `grid_dimensions` key is null
makes the `grid_resolution` f-string raise (the Python
`AttributeError` from `None.get('width_grids')`), so no integrated
record is produced — the formatting does not always succeed. -/
theorem c9_counterexample :
    merge_record phase1NullGrid phase2Empty = none ∧
    gridResolutionString phase1NullGrid = none := by
  decide

/-- C9, amended: whenever Phase 2's `annotation_metadata` and
Phase 1's `grid_dimensions` and `scale_info` are not null (absent or a
mapping), the merge succeeds and the record's `annotation_metadata` is
Phase 2's mapping shallow-merged with exactly the three overriding
keys `floor_type`, `grid_resolution` and `drawing_scale`, every other
key keeping its Phase 2 value; the `grid_resolution` string
substitutes the literal `"None"` for an absent dimension.  When one of
those three inputs is null, the merge raises instead. -/
theorem c9_amended (p1 : Phase1Data) (p2 : Phase2Data)
    (base : List (String × JVal)) (res : String) (ds : JVal)
    (hb : annotationBase p2 = some base)
    (hr : gridResolutionString p1 = some res)
    (hd : drawingScaleValue p1 = some ds) :
    ∃ rec, merge_record p1 p2 = some rec ∧
      rec.annotation_metadata =
        setKey (setKey (setKey base "floor_type" p1.floor)
          "grid_resolution" (JVal.str res)) "drawing_scale" ds ∧
      lookupKey "floor_type" rec.annotation_metadata = some p1.floor ∧
      lookupKey "grid_resolution" rec.annotation_metadata = some (JVal.str res) ∧
      lookupKey "drawing_scale" rec.annotation_metadata = some ds ∧
      (∀ k, k ≠ "floor_type" → k ≠ "grid_resolution" → k ≠ "drawing_scale" →
        lookupKey k rec.annotation_metadata = lookupKey k base) ∧
      (p1.grid_dimensions = JField.absent → res = "NonexNone") ∧
      (∀ gd, p1.grid_dimensions = JField.val gd →
        res = pyStrOfOptInt gd.width_grids ++ "x" ++ pyStrOfOptInt gd.height_grids) ∧
      pyStrOfOptInt none = "None" := by
  have hm : merge_record p1 p2 = some
      { floor := p1.floor
      , grid_dimensions := getJField p1.grid_dimensions
      , structural_elements := getJFieldD [] p2.structural_elements
      , annotation_metadata :=
          setKey (setKey (setKey base "floor_type" p1.floor)
            "grid_resolution" (JVal.str res)) "drawing_scale" ds } := by
    unfold merge_record
    rw [hb, hr, hd]
  refine ⟨_, hm, rfl, ?_, ?_, ?_, ?_, ?_, ?_, rfl⟩
  · rw [lookupKey_setKey_other _ _ _ _ (by decide),
      lookupKey_setKey_other _ _ _ _ (by decide), lookupKey_setKey_self]
  · rw [lookupKey_setKey_other _ _ _ _ (by decide), lookupKey_setKey_self]
  · rw [lookupKey_setKey_self]
  · intro k hk1 hk2 hk3
    rw [lookupKey_setKey_other _ _ _ _ (Ne.symm hk3),
      lookupKey_setKey_other _ _ _ _ (Ne.symm hk2),
      lookupKey_setKey_other _ _ _ _ (Ne.symm hk1)]
  · intro ha
    exact Option.some_injective _ (hr.symm.trans (gridResolutionString_absent p1 ha))
  · intro gd hgd
    exact Option.some_injective _ (hr.symm.trans (gridResolutionString_val p1 gd hgd))

/-- C9, witness: the amended statement applied to a Phase 1 with
absent grid and scale info and a Phase 2 carrying one annotation
entry: the extra entry survives the shallow merge, `floor_type` is
Phase 1's (null) floor, and `grid_resolution` is `NonexNone`. -/
theorem c9_amended_witness :
    (merge_record phase1Empty phase2Ann).map
        (fun r => (lookupKey "annotator" r.annotation_metadata,
                   lookupKey "floor_type" r.annotation_metadata,
                   lookupKey "grid_resolution" r.annotation_metadata)) =
      some (some (JVal.str "alice"), some JVal.null, some (JVal.str "NonexNone")) := by
  obtain ⟨rec, hm, _ham, h1, h2, _h3, hother, _hres, _hval, _hnone⟩ :=
    c9_amended phase1Empty phase2Ann [("annotator", JVal.str "alice")] "NonexNone" JVal.null
      (by decide) (by decide) (by decide)
  rw [hm]
  simp only [Option.map_some', Option.some.injEq, Prod.mk.injEq]
  exact ⟨(hother "annotator" (by decide) (by decide) (by decide)).trans (by decide),
    h1, h2⟩

/-- C8, counterexample: `.replace("_metadata", "")` removes every
occurrence, not just the suffix, so a metadata file with `_metadata`
in the middle of its name is paired with (and written to) names where
all occurrences are gone — not the suffix-stripped base
`plan_metadata_v2` the claim predicts. -/
theorem c8_counterexample :
    stemOf "plan_metadata_v2_metadata.json" = "plan_metadata_v2_metadata" ∧
    baseNameOf "plan_metadata_v2_metadata.json" = "plan_v2" ∧
    ("plan_v2" : String) ≠ "plan_metadata_v2" ∧
    outputNameOf "plan_metadata_v2_metadata.json" = "plan_v2_integrated.json" ∧
    find_json_pairs ["plan_metadata_v2_metadata.json", "plan_v2_elements.json",
        "plan_metadata_v2_elements.json"] =
      [("plan_metadata_v2_metadata.json", "plan_v2_elements.json")] := by
  decide

/-- C8, amended: for a file matching `*_metadata.json` in the listing,
the derived base name removes every occurrence of `_metadata` from the
stem (not only the suffix); the file is paired with
`<base>_elements.json` exactly when that sibling is present, and the
output file is named `<base>_integrated.json`. -/
theorem c8_amended (files : List String) (f : String)
    (hmem : f ∈ files) (hsuf : strEndsWith f "_metadata.json" = true) :
    baseNameOf f = removeAll "_metadata" (stemOf f) ∧
    outputNameOf f = baseNameOf f ++ "_integrated.json" ∧
    ((f, baseNameOf f ++ "_elements.json") ∈ find_json_pairs files ↔
      (baseNameOf f ++ "_elements.json") ∈ files) := by
  refine ⟨rfl, rfl, ?_⟩
  unfold find_json_pairs
  constructor
  · intro hp
    rw [List.mem_filterMap] at hp
    obtain ⟨a, _ha, hga⟩ := hp
    split at hga
    · rename_i hc
      simp only [Option.some.injEq, Prod.mk.injEq] at hga
      obtain ⟨h1, _h2⟩ := hga
      subst h1
      exact hc
    · exact absurd hga (by simp)
  · intro hmem2
    rw [List.mem_filterMap]
    refine ⟨f, ?_, ?_⟩
    · rw [List.mem_filter]
      exact ⟨hmem, hsuf⟩
    · rw [if_pos hmem2]

/-- C8, witness: the amended statement applied to a two-file listing
with a matching pair. -/
theorem c8_amended_witness :
    ("a_metadata.json" ∈ (["a_metadata.json", "a_elements.json"] : List String)) ∧
    strEndsWith "a_metadata.json" "_metadata.json" = true ∧
    ("a_metadata.json", "a_elements.json") ∈
      find_json_pairs ["a_metadata.json", "a_elements.json"] := by
  refine ⟨by decide, by decide, ?_⟩
  have h := (c8_amended ["a_metadata.json", "a_elements.json"] "a_metadata.json"
    (by decide) (by decide)).2.2
  have e : baseNameOf "a_metadata.json" ++ "_elements.json" = "a_elements.json" := by decide
  rw [e] at h
  exact h.mpr (by decide)

end MergePhase
